import Mathlib

/-!
Shallow embedding of the FLOWER_BOT repository (a Telegram flower-shop bot):
`src/utils/helpers.py`, `src/database/db.py`, `src/handlers/orders.py`,
`src/handlers/catalog.py`, `src/handlers/admin.py`, `src/keyboards/inline.py`.
Strings are modelled as `List Char`; Python exceptions as an explicit error
type; the async database as pure state-passing functions.
-/

namespace FlowerBot

/-- Python `str.isdigit` restricted to the ASCII digits; the repository only
ever feeds ASCII digits to it (regex `\d` also matches these). -/
def pyIsDigit (c : Char) : Bool := decide ('0' ≤ c) && decide (c ≤ '9')

/-- The ASCII whitespace characters recognised both by Python `str.strip()`
and by the regex class `\s` (the repository never feeds non-ASCII
whitespace). -/
def pyIsSpace (c : Char) : Bool :=
  c == ' ' || c == '\t' || c == '\n' || c == '\r' || c == '\x0b' || c == '\x0c'

/-- Python `str.strip()`: remove leading and trailing whitespace. -/
def pyStrip (cs : List Char) : List Char :=
  (((cs.dropWhile pyIsSpace).reverse).dropWhile pyIsSpace).reverse

/-- Consume exactly `n` digits from the front, returning the rest
(the regex fragment `\d{n}`). -/
def eatDigits : Nat → List Char → Option (List Char)
  | 0, cs => some cs
  | _ + 1, [] => none
  | n + 1, c :: cs => if pyIsDigit c then eatDigits n cs else none

/-- Consume one optional whitespace character (the regex fragment `\s?`;
deterministic because a whitespace character is never a digit). -/
def eatOptSpace (cs : List Char) : List Char :=
  match cs with
  | [] => []
  | c :: rest => if pyIsSpace c then rest else c :: rest

/-- The regex `^\+\d{2}\s?\d{3}\s?\d{3}\s?\d{4}$` after the leading `+`. -/
def matchIntlTail (rest : List Char) : Bool :=
  match eatDigits 2 rest with
  | none => false
  | some r1 =>
    match eatDigits 3 (eatOptSpace r1) with
    | none => false
    | some r2 =>
      match eatDigits 3 (eatOptSpace r2) with
      | none => false
      | some r3 =>
        match eatDigits 4 (eatOptSpace r3) with
        | none => false
        | some r4 => r4.isEmpty

/-- Full match of the first pattern `^\+\d{2}\s?\d{3}\s?\d{3}\s?\d{4}$`. -/
def matchIntl : List Char → Bool
  | c :: rest => c == '+' && matchIntlTail rest
  | [] => false

/-- Full match of the second pattern `^0\d{9}$`. -/
def matchLocal10 : List Char → Bool
  | c :: rest => c == '0' && rest.all pyIsDigit && decide (rest.length = 9)
  | [] => false

/-- Full match of the third pattern `^\+\d{9,15}$`. -/
def matchPlus9to15 : List Char → Bool
  | c :: rest =>
      c == '+' && rest.all pyIsDigit &&
        decide (9 ≤ rest.length) && decide (rest.length ≤ 15)
  | [] => false

/-- `is_phone_valid` from `src/utils/helpers.py`: strip the input, then
accept when any of the three regex patterns matches it in full. -/
def is_phone_valid (phone : List Char) : Bool :=
  let s := pyStrip phone
  matchIntl s || matchLocal10 s || matchPlus9to15 s

/-- Value of a nonempty ASCII digit string, as computed by Python `int(raw)`. -/
def digitsToNat (cs : List Char) : Nat :=
  cs.foldl (fun a c => a * 10 + (c.toNat - '0'.toNat)) 0

/-- Python `str.lower()` restricted to ASCII letters and the basic Cyrillic
range А–Я (U+0410–U+042F); the only characters `admin_add_price` ever
lowercases that have a distinct lowercase form. -/
def pyLowerChar (c : Char) : Char :=
  if 'A' ≤ c ∧ c ≤ 'Z' then Char.ofNat (c.toNat + 32)
  else if 'А' ≤ c ∧ c ≤ 'Я' then Char.ofNat (c.toNat + 32)
  else c

/-- Boolean test that `hay` begins with `needle` (Python `str.startswith`). -/
def startsWithChars : List Char → List Char → Bool
  | [], _ => true
  | _ :: _, [] => false
  | a :: as, b :: bs => a == b && startsWithChars as bs

/-- Boolean test that `needle` occurs contiguously anywhere in `hay`
(Python `in` on strings). -/
def containsChars (needle : List Char) : List Char → Bool
  | [] => startsWithChars needle []
  | c :: cs => startsWithChars needle (c :: cs) || containsChars needle cs

/-! ## Data model (`src/database/models.py`, `src/database/db.py`) -/

/-- A row of the `products` table. `created_at` is an abstract timestamp;
the product lists below are kept in the `ORDER BY created_at DESC` order the
queries return them in. -/
structure Product where
  id : Nat
  category_id : Nat
  name : String
  price : Int
  price_from : Bool
  description : String
  photo_file_id : String
  is_active : Bool
  deriving DecidableEq

/-- A row of the `orders` table. -/
structure OrderRow where
  id : Nat
  user_id : Nat
  username : Option String
  product_id : Nat
  price : Int
  delivery_date : String
  delivery_time : String
  address : String
  card_text : Option String
  phone : String
  status : String
  deriving DecidableEq

/-- A row of the `support_messages` table. -/
structure SupportRow where
  id : Nat
  user_id : Nat
  username : Option String
  text : String
  deriving DecidableEq

/-- The `categories` table: rows `(id, name)` in id order, plus the next
AUTOINCREMENT id. -/
structure CatTable where
  nextId : Nat
  rows : List (Nat × String)
  deriving DecidableEq

/-- How a storage call observably fails in Python when `self._conn` is
`None`: `create_schema` raises `RuntimeError("Database connection is not
initialized")`; every other method dereferences `self._conn` directly and
raises `AttributeError` instead. -/
inductive PyError where
  | notInitialized
  | attributeNoneExecute
  deriving DecidableEq

/-- The connection slot `self._conn` (present or absent). -/
abbrev Conn := Option Unit

/-- `Database.create_schema`: the only method that explicitly checks the
connection and raises the "not initialized" `RuntimeError`. Table creation
itself is idempotent DDL and is not modelled further. -/
def create_schema (conn : Conn) : Except PyError Unit :=
  match conn with
  | none => .error .notInitialized
  | some _ => .ok ()

/-- The SQL effect of `add_category`: `INSERT OR IGNORE` under the
`UNIQUE` constraint on `name` — a duplicate name leaves the table
unchanged, otherwise the row is appended with the next id. -/
def add_category_db (t : CatTable) (name : String) : CatTable :=
  if t.rows.any (fun r => r.2 == name) then t
  else { nextId := t.nextId + 1, rows := t.rows ++ [(t.nextId, name)] }

/-- `Database.add_category` (`self._conn.execute` on a `None` connection
raises `AttributeError`). -/
def add_category (conn : Conn) (t : CatTable) (name : String) :
    Except PyError CatTable :=
  match conn with
  | none => .error .attributeNoneExecute
  | some _ => .ok (add_category_db t name)

/-- The SQL effect of `rename_category`: `UPDATE categories SET name = ?
WHERE id = ?`; the `UNIQUE` constraint on `name` aborts the statement
(state unchanged) when the new name is already used by a different row. -/
def rename_category_db (t : CatTable) (category_id : Nat) (new_name : String) :
    CatTable :=
  if t.rows.any (fun r => !(r.1 == category_id) && r.2 == new_name) then t
  else { t with
         rows := t.rows.map
           (fun r => if r.1 == category_id then (r.1, new_name) else r) }

/-- `Database.rename_category`. -/
def rename_category (conn : Conn) (t : CatTable) (category_id : Nat)
    (new_name : String) : Except PyError CatTable :=
  match conn with
  | none => .error .attributeNoneExecute
  | some _ => .ok (rename_category_db t category_id new_name)

/-- The SQL effect of `delete_category`: `DELETE FROM categories WHERE
id = ?` (products cascade; the category table itself just drops the row). -/
def delete_category_db (t : CatTable) (category_id : Nat) : CatTable :=
  { t with rows := t.rows.filter (fun r => !(r.1 == category_id)) }

/-- `Database.delete_category`. -/
def delete_category (conn : Conn) (t : CatTable) (category_id : Nat) :
    Except PyError CatTable :=
  match conn with
  | none => .error .attributeNoneExecute
  | some _ => .ok (delete_category_db t category_id)

/-- `Database.get_categories` (`SELECT id, name ... ORDER BY id ASC`;
rows are kept in id order). -/
def get_categories (conn : Conn) (t : CatTable) :
    Except PyError (List (Nat × String)) :=
  match conn with
  | none => .error .attributeNoneExecute
  | some _ => .ok t.rows

/-- The SQL effect of `add_product`: insert with the next id. New rows are
placed at the front so the list stays in `created_at DESC` order. -/
def add_product_db (nextId : Nat) (ps : List Product) (category_id : Nat)
    (name : String) (price : Int) (price_from : Bool) (description : String)
    (photo_file_id : String) (is_active : Bool := true) :
    Nat × List Product :=
  (nextId + 1,
   { id := nextId, category_id := category_id, name := name, price := price,
     price_from := price_from, description := description,
     photo_file_id := photo_file_id, is_active := is_active } :: ps)

/-- `Database.add_product`. -/
def add_product (conn : Conn) (nextId : Nat) (ps : List Product)
    (category_id : Nat) (name : String) (price : Int) (price_from : Bool)
    (description : String) (photo_file_id : String)
    (is_active : Bool := true) : Except PyError (Nat × List Product) :=
  match conn with
  | none => .error .attributeNoneExecute
  | some _ => .ok (add_product_db nextId ps category_id name price price_from
      description photo_file_id is_active)

/-- One `key = value` pair of the dynamic `**fields` of `update_product`. -/
inductive ProductField where
  | fcategory_id (v : Nat)
  | fname (v : String)
  | fprice (v : Int)
  | fprice_from (v : Bool)
  | fdescription (v : String)
  | fphoto_file_id (v : String)
  | fis_active (v : Bool)
  deriving DecidableEq

/-- Apply one `SET key = value` assignment to a product row. -/
def applyField (p : Product) : ProductField → Product
  | .fcategory_id v => { p with category_id := v }
  | .fname v => { p with name := v }
  | .fprice v => { p with price := v }
  | .fprice_from v => { p with price_from := v }
  | .fdescription v => { p with description := v }
  | .fphoto_file_id v => { p with photo_file_id := v }
  | .fis_active v => { p with is_active := v }

/-- `Database.update_product`: with no fields it returns before touching the
connection; otherwise it updates the matching row. -/
def update_product (conn : Conn) (ps : List Product) (product_id : Nat)
    (fields : List ProductField) : Except PyError (List Product) :=
  if fields.isEmpty then .ok ps
  else
    match conn with
    | none => .error .attributeNoneExecute
    | some _ => .ok (ps.map (fun p =>
        if p.id == product_id then fields.foldl applyField p else p))

/-- `Database.delete_product`. -/
def delete_product (conn : Conn) (ps : List Product) (product_id : Nat) :
    Except PyError (List Product) :=
  match conn with
  | none => .error .attributeNoneExecute
  | some _ => .ok (ps.filter (fun p => !(p.id == product_id)))

/-- The rows `WHERE category_id = ? AND is_active = 1`, in the stored
(`created_at DESC`) order. -/
def active_in_category (ps : List Product) (category_id : Nat) :
    List Product :=
  ps.filter (fun p => p.category_id == category_id && p.is_active)

/-- The SQL effect of `get_products_by_category` (`LIMIT ? OFFSET ?`). -/
def get_products_by_category_db (ps : List Product) (category_id : Nat)
    (limit : Nat) (offset : Nat) : List Product :=
  ((active_in_category ps category_id).drop offset).take limit

/-- `Database.get_products_by_category`. -/
def get_products_by_category (conn : Conn) (ps : List Product)
    (category_id : Nat) (limit : Nat) (offset : Nat := 0) :
    Except PyError (List Product) :=
  match conn with
  | none => .error .attributeNoneExecute
  | some _ => .ok (get_products_by_category_db ps category_id limit offset)

/-- The SQL effect of `count_products_in_category`
(`SELECT COUNT(*) ... WHERE category_id = ? AND is_active = 1`). -/
def count_products_in_category_db (ps : List Product) (category_id : Nat) :
    Nat :=
  (active_in_category ps category_id).length

/-- `Database.count_products_in_category`. -/
def count_products_in_category (conn : Conn) (ps : List Product)
    (category_id : Nat) : Except PyError Nat :=
  match conn with
  | none => .error .attributeNoneExecute
  | some _ => .ok (count_products_in_category_db ps category_id)

/-- The SQL effect of `get_product` (`SELECT ... WHERE id = ?`, one row or
none). -/
def get_product_db (ps : List Product) (product_id : Nat) : Option Product :=
  ps.find? (fun p => p.id == product_id)

/-- `Database.get_product`. -/
def get_product (conn : Conn) (ps : List Product) (product_id : Nat) :
    Except PyError (Option Product) :=
  match conn with
  | none => .error .attributeNoneExecute
  | some _ => .ok (get_product_db ps product_id)

/-- The SQL effect of `create_order`: insert a new order row; `status`
defaults to `'🟡 Новый'` both in the method signature and in the schema. -/
def create_order_db (nextId : Nat) (orders : List OrderRow) (user_id : Nat)
    (username : Option String) (product_id : Nat) (price : Int)
    (delivery_date : String) (delivery_time : String) (address : String)
    (card_text : Option String) (phone : String)
    (status : String := "🟡 Новый") : Nat × List OrderRow :=
  (nextId + 1,
   orders ++ [{ id := nextId, user_id := user_id, username := username,
                product_id := product_id, price := price,
                delivery_date := delivery_date, delivery_time := delivery_time,
                address := address, card_text := card_text, phone := phone,
                status := status }])

/-- `Database.create_order`. -/
def create_order (conn : Conn) (nextId : Nat) (orders : List OrderRow)
    (user_id : Nat) (username : Option String) (product_id : Nat)
    (price : Int) (delivery_date : String) (delivery_time : String)
    (address : String) (card_text : Option String) (phone : String)
    (status : String := "🟡 Новый") : Except PyError (Nat × List OrderRow) :=
  match conn with
  | none => .error .attributeNoneExecute
  | some _ => .ok (create_order_db nextId orders user_id username product_id
      price delivery_date delivery_time address card_text phone status)

/-- The SQL effect of `update_order_status`
(`UPDATE orders SET status = ? WHERE id = ?`). -/
def update_order_status_db (orders : List OrderRow) (order_id : Nat)
    (status : String) : List OrderRow :=
  orders.map (fun o => if o.id == order_id then { o with status := status }
                       else o)

/-- `Database.update_order_status`. -/
def update_order_status (conn : Conn) (orders : List OrderRow)
    (order_id : Nat) (status : String) : Except PyError (List OrderRow) :=
  match conn with
  | none => .error .attributeNoneExecute
  | some _ => .ok (update_order_status_db orders order_id status)

/-- The SQL effect of `get_order` (`SELECT ... WHERE id = ?`). -/
def get_order_db (orders : List OrderRow) (order_id : Nat) :
    Option OrderRow :=
  orders.find? (fun o => o.id == order_id)

/-- `Database.get_order`. -/
def get_order (conn : Conn) (orders : List OrderRow) (order_id : Nat) :
    Except PyError (Option OrderRow) :=
  match conn with
  | none => .error .attributeNoneExecute
  | some _ => .ok (get_order_db orders order_id)

/-- `Database.get_user_orders` (`WHERE user_id = ? ORDER BY created_at DESC
LIMIT ?`; the order list is kept in `created_at DESC` order). -/
def get_user_orders (conn : Conn) (orders : List OrderRow) (user_id : Nat)
    (limit : Nat := 10) : Except PyError (List OrderRow) :=
  match conn with
  | none => .error .attributeNoneExecute
  | some _ => .ok ((orders.filter (fun o => o.user_id == user_id)).take limit)

/-- `Database.get_last_completed_orders` (`WHERE user_id = ? AND
status = '🟢 Завершён' ORDER BY created_at DESC LIMIT ?`; the order list
is kept in `created_at DESC` order). -/
def get_last_completed_orders (conn : Conn) (orders : List OrderRow)
    (user_id : Nat) (limit : Nat := 3) : Except PyError (List OrderRow) :=
  match conn with
  | none => .error .attributeNoneExecute
  | some _ => .ok ((orders.filter (fun o =>
      o.user_id == user_id && o.status == "🟢 Завершён")).take limit)

/-- `Database.save_support_message`. -/
def save_support_message (conn : Conn) (nextId : Nat)
    (msgs : List SupportRow) (user_id : Nat) (username : Option String)
    (text : String) : Except PyError (Nat × List SupportRow) :=
  match conn with
  | none => .error .attributeNoneExecute
  | some _ => .ok (nextId + 1,
      msgs ++ [{ id := nextId, user_id := user_id, username := username,
                 text := text }])

/-! ## Helpers and cutoff (`src/utils/helpers.py`) -/

/-- `normalize_card_text`: strip, then truncate to 200 characters. -/
def normalize_card_text (text : List Char) : List Char :=
  (pyStrip text).take 200

/-- `is_after_six_pm`: `now.time() >= time(hour=18, minute=0)`, i.e. the
lexicographic comparison of `(hour, minute)` against `(18, 0)`. -/
def is_after_six_pm (hour minute : Nat) : Bool :=
  decide (18 < hour ∨ (hour = 18 ∧ 0 ≤ minute))

/-! ## Order FSM and handlers (`src/states/order.py`, `src/handlers/orders.py`) -/

/-- `OrderStates` from `src/states/order.py`. -/
inductive OrderFsm where
  | waiting_for_delivery_date
  | waiting_for_delivery_time
  | waiting_for_address
  | waiting_for_card_text
  | waiting_for_phone
  | waiting_for_confirmation
  deriving DecidableEq

/-- The conversation-state fields the address and confirmation handlers
read and write (`state.get_data()` / `state.update_data(...)`). -/
structure ConvData where
  product_id : Nat
  product_price : Int
  product_name : String
  delivery_date : String
  delivery_time : String
  address : Option String
  card_text : Option String
  phone : String
  deriving DecidableEq

/-- `address_location`: a shared location stores the address as
`geo:<latitude>,<longitude>` and asks for a supplementary text line; the
FSM state is not changed. Coordinates are modelled by their rendered
decimal strings. -/
def address_location (d : ConvData) (fsm : OrderFsm)
    (latitude longitude : String) : ConvData × OrderFsm :=
  ({ d with address := some ("geo:" ++ latitude ++ "," ++ longitude) }, fsm)

/-- `address_text`: free text shorter than 10 characters (after strip) is
rejected with a re-prompt and no change; otherwise the stripped text is
stored as the address and the FSM advances to `waiting_for_card_text`. -/
def address_text (d : ConvData) (fsm : OrderFsm) (text : String) :
    ConvData × OrderFsm :=
  let stripped := pyStrip text.toList
  if stripped.length < 10 then (d, fsm)
  else ({ d with address := some (String.mk stripped) },
        OrderFsm.waiting_for_card_text)

/-- `order_confirm` (`src/handlers/orders.py`): re-read the product by the
snapshotted `product_id`; if it is gone, answer "not found" and create
nothing; otherwise persist an `Order` whose price is the product's price
re-read from storage (the `prepayment` shown to the user and the
notification texts do not affect the persisted row and are not modelled).
Returns the appended order row, or `none`. -/
def order_confirm (ps : List Product) (nextId : Nat)
    (orders : List OrderRow) (user_id : Nat) (username : Option String)
    (d : ConvData) : Option (Nat × List OrderRow) :=
  match get_product_db ps d.product_id with
  | none => none
  | some product =>
      some (create_order_db nextId orders user_id username d.product_id
        product.price d.delivery_date d.delivery_time
        (d.address.getD "") d.card_text d.phone)

/-- `admin_order_accept`: after the admin and existence checks, set the
order's status to `🔵 В работе`; the customer notification is attempted
inside `try/except: pass`, so its outcome `notify_ok` cannot influence the
resulting table. -/
def admin_order_accept (admin_ids : List Nat) (caller : Nat)
    (orders : List OrderRow) (order_id : Nat) (notify_ok : Bool) :
    List OrderRow :=
  if caller ∈ admin_ids then
    match get_order_db orders order_id with
    | none => orders
    | some _ =>
        let updated := update_order_status_db orders order_id "🔵 В работе"
        let _ := notify_ok
        updated
  else orders

/-- `admin_order_reject`: as `admin_order_accept`, with status
`❌ Отменён`. -/
def admin_order_reject (admin_ids : List Nat) (caller : Nat)
    (orders : List OrderRow) (order_id : Nat) (notify_ok : Bool) :
    List OrderRow :=
  if caller ∈ admin_ids then
    match get_order_db orders order_id with
    | none => orders
    | some _ =>
        let updated := update_order_status_db orders order_id "❌ Отменён"
        let _ := notify_ok
        updated
  else orders

/-! ## Date keyboard (`src/keyboards/inline.py`, `src/handlers/orders.py`) -/

/-- The payload of a `date_selected:<value>` callback button. Calendar days
are day numbers (days since an arbitrary epoch), standing for the ISO date
strings the code emits. -/
inductive DateChoice where
  | today
  | tomorrow
  | explicitDate (d : Nat)
  deriving DecidableEq

/-- A button of the date keyboard. -/
inductive DateButton where
  | dateSel (c : DateChoice)
  | cancelOrder
  deriving DecidableEq

/-- `order_date_kb`: the quick row (`Сегодня` only when `include_today`,
then `Завтра`), the 14-day calendar grid starting at `today` arranged
7 per row, and the cancel row. -/
def order_date_kb (include_today : Bool) (today : Nat) :
    List (List DateButton) :=
  let quick := (if include_today then [DateButton.dateSel DateChoice.today]
                else []) ++ [DateButton.dateSel DateChoice.tomorrow]
  let days := (List.range 14).map
    (fun i => DateButton.dateSel (DateChoice.explicitDate (today + i)))
  [quick] ++ [days.take 7, (days.drop 7).take 7] ++
    [[DateButton.cancelOrder]]

/-- The `date_selected` handler's resolution of a callback value to a
calendar date: `today`, `tomorrow` (= today + 1), or the explicit date. -/
def date_selected_resolve (today : Nat) : DateChoice → Nat
  | .today => today
  | .tomorrow => today + 1
  | .explicitDate d => d

/-- `order_start` (`src/handlers/catalog.py`): the keyboard a fresh order
shows, with `include_today = not is_after_six_pm()`. -/
def order_start_kb (hour minute : Nat) (today : Nat) :
    List (List DateButton) :=
  order_date_kb (!is_after_six_pm hour minute) today

/-! ## Catalog pagination (`src/handlers/catalog.py`) -/

/-- `PAGE_SIZE` from `src/handlers/catalog.py`. -/
def PAGE_SIZE : Nat := 5

/-- The result of `send_products_page`: the computed page count, the
clamped page, and the product rows sent. -/
structure PageResult where
  total_pages : Nat
  page : Nat
  products : List Product
  deriving DecidableEq

/-- `send_products_page`: `total_pages = max(1, ceil(total / PAGE_SIZE))`,
`page = min(max(1, page), total_pages)`, `offset = (page - 1) * PAGE_SIZE`,
then the `LIMIT PAGE_SIZE OFFSET offset` query. The requested page comes
from callback data and may be any integer. -/
def send_products_page (ps : List Product) (category_id : Nat)
    (page : Int) : PageResult :=
  let total := count_products_in_category_db ps category_id
  let total_pages := max 1 ((total + PAGE_SIZE - 1) / PAGE_SIZE)
  let clamped := (min (max 1 page) (total_pages : Int)).toNat
  let offset := (clamped - 1) * PAGE_SIZE
  { total_pages := total_pages, page := clamped,
    products := get_products_by_category_db ps category_id PAGE_SIZE offset }

/-! ## Admin price step (`src/handlers/admin.py`) -/

/-- `admin_add_price`: strip the text; when the lowercased text starts with
`от`, set `price_from` and drop those two characters (re-stripping); then
the rest must be a nonempty digit string (`str.isdigit`) or the input is
rejected (`none`) with a re-prompt. -/
def admin_add_price (text : List Char) : Option (Nat × Bool) :=
  let raw := pyStrip text
  let pair :=
    if startsWithChars ['о', 'т'] (raw.map pyLowerChar) then
      (pyStrip (raw.drop 2), true)
    else (raw, false)
  if pair.1 ≠ [] ∧ pair.1.all pyIsDigit then
    some (digitsToNat pair.1, pair.2)
  else none

/-! ## Category operation sequences (`src/database/db.py`) -/

/-- One storage-layer category operation. -/
inductive CatOp where
  | addC (name : String)
  | renameC (category_id : Nat) (new_name : String)
  | deleteC (category_id : Nat)
  deriving DecidableEq

/-- Apply one category operation on a connected database. -/
def applyCatOp (t : CatTable) : CatOp → CatTable
  | .addC name => add_category_db t name
  | .renameC cid nn => rename_category_db t cid nn
  | .deleteC cid => delete_category_db t cid

/-- Apply a sequence of category operations. -/
def applyCatOps (t : CatTable) (ops : List CatOp) : CatTable :=
  ops.foldl applyCatOp t

/-- Structural well-formedness SQLite guarantees for the `categories`
table: primary-key ids are pairwise distinct and below the AUTOINCREMENT
counter. -/
def CatWF (t : CatTable) : Prop :=
  (t.rows.map Prod.fst).Nodup ∧ ∀ r ∈ t.rows, r.1 < t.nextId

/-- The category-name uniqueness invariant (`name TEXT NOT NULL UNIQUE`). -/
def CatNamesDistinct (t : CatTable) : Prop :=
  (t.rows.map Prod.snd).Nodup

instance (t : CatTable) : Decidable (CatWF t) := by
  unfold CatWF; infer_instance

instance (t : CatTable) : Decidable (CatNamesDistinct t) := by
  unfold CatNamesDistinct; infer_instance

/-! ## Spec-side phone shapes (for comparison with the source regexes) -/

/-- A group of exactly `n` digits. -/
def digitGroup (n : Nat) (g : List Char) : Prop :=
  g.length = n ∧ ∀ c ∈ g, pyIsDigit c = true

/-- An optional single whitespace separator between digit groups. -/
def optSep (s : List Char) : Prop :=
  s = [] ∨ ∃ c, pyIsSpace c = true ∧ s = [c]

/-- Spec shape 1: international `+DD DDD DDD DDDD` with optional single
separators between the groups. -/
def specIntlShape (cs : List Char) : Prop :=
  ∃ g1 s1 g2 s2 g3 s3 g4,
    digitGroup 2 g1 ∧ optSep s1 ∧ digitGroup 3 g2 ∧ optSep s2 ∧
    digitGroup 3 g3 ∧ optSep s3 ∧ digitGroup 4 g4 ∧
    cs = '+' :: (g1 ++ s1 ++ g2 ++ s2 ++ g3 ++ s3 ++ g4)

/-- Spec shape 2: a 10-digit local number whose first digit is `0`. -/
def specLocalShape (cs : List Char) : Prop :=
  ∃ ds, digitGroup 9 ds ∧ cs = '0' :: ds

/-- Spec shape 3: `+` followed by 9 to 15 digits. -/
def specGenericShape (cs : List Char) : Prop :=
  ∃ ds, (∀ c ∈ ds, pyIsDigit c = true) ∧ 9 ≤ ds.length ∧ ds.length ≤ 15 ∧
    cs = '+' :: ds

/-! ## Helper lemmas -/

lemma pyStrip_eq_rdropWhile (l : List Char) :
    pyStrip l = List.rdropWhile pyIsSpace (l.dropWhile pyIsSpace) := rfl

lemma head?_dropWhile_not_space (l : List Char) (c : Char)
    (h : (l.dropWhile pyIsSpace).head? = some c) : pyIsSpace c = false := by
  induction l with
  | nil => simp [List.dropWhile] at h
  | cons d ds ih =>
      by_cases hd : pyIsSpace d
      · simp only [List.dropWhile, hd] at h
        exact ih h
      · simp only [List.dropWhile, hd, Bool.false_eq_true, if_false,
          List.head?_cons, Option.some.injEq] at h
        subst h
        simpa using hd

lemma dropWhile_eq_self_of_head? (l : List Char)
    (h : ∀ c, l.head? = some c → pyIsSpace c = false) :
    l.dropWhile pyIsSpace = l := by
  cases l with
  | nil => rfl
  | cons c cs => simp [List.dropWhile, h c rfl]

lemma pyStrip_idem (cs : List Char) : pyStrip (pyStrip cs) = pyStrip cs := by
  rw [pyStrip_eq_rdropWhile, pyStrip_eq_rdropWhile]
  have h2 : (List.rdropWhile pyIsSpace (cs.dropWhile pyIsSpace)).dropWhile
      pyIsSpace = List.rdropWhile pyIsSpace (cs.dropWhile pyIsSpace) := by
    apply dropWhile_eq_self_of_head?
    intro c hc
    have hpre := List.rdropWhile_prefix pyIsSpace (cs.dropWhile pyIsSpace)
    obtain ⟨t, ht⟩ := hpre
    cases hx : List.rdropWhile pyIsSpace (cs.dropWhile pyIsSpace) with
    | nil => rw [hx] at hc; simp at hc
    | cons c0 rest =>
        rw [hx] at hc
        simp only [List.head?_cons, Option.some.injEq] at hc
        subst hc
        rw [hx] at ht
        apply head?_dropWhile_not_space cs c0
        rw [← ht]
        rfl
  rw [h2, List.rdropWhile_idempotent]

/-- C10: phone validation is invariant under surrounding whitespace — for
every string, validating it and validating its stripped form give the same
verdict (the input is stripped before the regexes are tried). -/
theorem c10_phone_strip_invariant (s : List Char) :
    is_phone_valid s = is_phone_valid (pyStrip s) := by
  unfold is_phone_valid
  rw [pyStrip_idem]

lemma eatDigits_eq_some_iff {n : Nat} {cs r : List Char} :
    eatDigits n cs = some r ↔ ∃ g, digitGroup n g ∧ cs = g ++ r := by
  induction n generalizing cs with
  | zero =>
      constructor
      · intro h
        simp only [eatDigits, Option.some.injEq] at h
        exact ⟨[], ⟨rfl, by simp⟩, by simp [h]⟩
      · rintro ⟨g, ⟨hlen, _⟩, rfl⟩
        have hg : g = [] := List.length_eq_zero.mp hlen
        subst hg
        simp [eatDigits]
  | succ n ih =>
      cases cs with
      | nil =>
          constructor
          · intro h; simp [eatDigits] at h
          · rintro ⟨g, ⟨hlen, _⟩, heq⟩
            have := congrArg List.length heq
            simp [hlen] at this
            exact absurd this (by omega)
      | cons c cs2 =>
          by_cases hc : pyIsDigit c
          · rw [show eatDigits (n + 1) (c :: cs2) = eatDigits n cs2 by
              simp [eatDigits, hc]]
            rw [ih]
            constructor
            · rintro ⟨g, ⟨hl, hd⟩, rfl⟩
              refine ⟨c :: g, ⟨by simp [hl], ?_⟩, rfl⟩
              intro x hx
              rcases List.mem_cons.mp hx with rfl | hx2
              · exact hc
              · exact hd x hx2
            · rintro ⟨g, ⟨hl, hd⟩, heq⟩
              cases g with
              | nil => simp at hl
              | cons g0 gs =>
                  simp only [List.cons_append, List.cons.injEq] at heq
                  obtain ⟨rfl, heq2⟩ := heq
                  exact ⟨gs, ⟨by simpa using hl,
                    fun x hx => hd x (by simp [hx])⟩, heq2⟩
          · rw [show eatDigits (n + 1) (c :: cs2) = none by
              simp [eatDigits, hc]]
            constructor
            · intro h; simp at h
            · rintro ⟨g, ⟨hl, hd⟩, heq⟩
              cases g with
              | nil => simp at hl
              | cons g0 gs =>
                  simp only [List.cons_append, List.cons.injEq] at heq
                  obtain ⟨rfl, _⟩ := heq
                  exact absurd (hd c (by simp)) hc

lemma eatDigits_append {n : Nat} {g : List Char} (r : List Char)
    (hg : digitGroup n g) : eatDigits n (g ++ r) = some r :=
  eatDigits_eq_some_iff.mpr ⟨g, hg, rfl⟩

lemma eatOptSpace_split (cs : List Char) :
    ∃ s, optSep s ∧ cs = s ++ eatOptSpace cs := by
  cases cs with
  | nil => exact ⟨[], Or.inl rfl, rfl⟩
  | cons c rest =>
      by_cases h : pyIsSpace c
      · exact ⟨[c], Or.inr ⟨c, h, rfl⟩, by simp [eatOptSpace, h]⟩
      · exact ⟨[], Or.inl rfl, by simp [eatOptSpace, h]⟩

lemma digit_not_space {c : Char} (h : pyIsDigit c = true) :
    pyIsSpace c = false := by
  simp only [pyIsDigit, Bool.and_eq_true, decide_eq_true_eq] at h
  obtain ⟨h1, h2⟩ := h
  simp only [pyIsSpace, Bool.or_eq_false_iff, beq_eq_false_iff_ne, ne_eq]
  refine ⟨⟨⟨⟨⟨?_, ?_⟩, ?_⟩, ?_⟩, ?_⟩, ?_⟩ <;>
    (rintro rfl; exact absurd h1 (by decide))

lemma eatOptSpace_of_digit_head {g : List Char} (r : List Char)
    (hne : g ≠ []) (hd : ∀ c ∈ g, pyIsDigit c = true) :
    eatOptSpace (g ++ r) = g ++ r := by
  cases g with
  | nil => exact absurd rfl hne
  | cons c cs =>
      have hns := digit_not_space (hd c (by simp))
      simp [eatOptSpace, hns]

lemma matchIntl_iff (cs : List Char) :
    matchIntl cs = true ↔ specIntlShape cs := by
  constructor
  · intro h
    cases cs with
    | nil => simp [matchIntl] at h
    | cons c rest =>
        simp only [matchIntl, Bool.and_eq_true, beq_iff_eq] at h
        obtain ⟨rfl, h⟩ := h
        unfold matchIntlTail at h
        split at h
        · simp at h
        · rename_i r1 h1
          split at h
          · simp at h
          · rename_i r2 h2
            split at h
            · simp at h
            · rename_i r3 h3
              split at h
              · simp at h
              · rename_i r4 h4
                have hr4 : r4 = [] := by
                  simpa [List.isEmpty_iff] using h
                subst hr4
                obtain ⟨g1, hg1, hrest⟩ := eatDigits_eq_some_iff.mp h1
                obtain ⟨s1, hs1, hsplit1⟩ := eatOptSpace_split r1
                obtain ⟨g2, hg2, hr1⟩ := eatDigits_eq_some_iff.mp h2
                obtain ⟨s2, hs2, hsplit2⟩ := eatOptSpace_split r2
                obtain ⟨g3, hg3, hr2⟩ := eatDigits_eq_some_iff.mp h3
                obtain ⟨s3, hs3, hsplit3⟩ := eatOptSpace_split r3
                obtain ⟨g4, hg4, hr3⟩ := eatDigits_eq_some_iff.mp h4
                refine ⟨g1, s1, g2, s2, g3, s3, g4,
                  hg1, hs1, hg2, hs2, hg3, hs3, hg4, ?_⟩
                rw [hrest, hsplit1, hr1, hsplit2, hr2, hsplit3, hr3]
                simp [List.append_assoc]
  · rintro ⟨g1, s1, g2, s2, g3, s3, g4,
      hg1, hs1, hg2, hs2, hg3, hs3, hg4, rfl⟩
    have hne2 : g2 ≠ [] := by
      intro hg; rw [hg] at hg2; simpa using hg2.1
    have hne3 : g3 ≠ [] := by
      intro hg; rw [hg] at hg3; simpa using hg3.1
    have hne4 : g4 ≠ [] := by
      intro hg; rw [hg] at hg4; simpa using hg4.1
    have e1 : eatOptSpace (s1 ++ (g2 ++ (s2 ++ (g3 ++ (s3 ++ g4))))) =
        g2 ++ (s2 ++ (g3 ++ (s3 ++ g4))) := by
      rcases hs1 with rfl | ⟨c, hc, rfl⟩
      · rw [List.nil_append]
        exact eatOptSpace_of_digit_head _ hne2 hg2.2
      · simp [eatOptSpace, hc]
    have e2 : eatOptSpace (s2 ++ (g3 ++ (s3 ++ g4))) =
        g3 ++ (s3 ++ g4) := by
      rcases hs2 with rfl | ⟨c, hc, rfl⟩
      · rw [List.nil_append]
        exact eatOptSpace_of_digit_head _ hne3 hg3.2
      · simp [eatOptSpace, hc]
    have e3 : eatOptSpace (s3 ++ g4) = g4 := by
      rcases hs3 with rfl | ⟨c, hc, rfl⟩
      · rw [List.nil_append]
        have := eatOptSpace_of_digit_head [] hne4 hg4.2
        simpa using this
      · simp [eatOptSpace, hc]
    have e4 : eatDigits 4 g4 = some [] := by
      have := eatDigits_append (g := g4) [] hg4
      simpa using this
    simp only [matchIntl, Bool.and_eq_true, beq_iff_eq]
    refine ⟨trivial, ?_⟩
    unfold matchIntlTail
    rw [show g1 ++ s1 ++ g2 ++ s2 ++ g3 ++ s3 ++ g4 =
        g1 ++ (s1 ++ (g2 ++ (s2 ++ (g3 ++ (s3 ++ g4))))) by
      simp [List.append_assoc]]
    simp only [eatDigits_append _ hg1, e1, eatDigits_append _ hg2, e2,
      eatDigits_append _ hg3, e3, e4, List.isEmpty_nil]

lemma matchLocal10_iff (cs : List Char) :
    matchLocal10 cs = true ↔ specLocalShape cs := by
  cases cs with
  | nil => simp [matchLocal10, specLocalShape]
  | cons c rest =>
      simp only [matchLocal10, Bool.and_eq_true, beq_iff_eq,
        List.all_eq_true, decide_eq_true_eq, specLocalShape, digitGroup]
      constructor
      · rintro ⟨⟨rfl, hd⟩, hl⟩
        exact ⟨rest, ⟨hl, hd⟩, rfl⟩
      · rintro ⟨ds, ⟨hl, hd⟩, heq⟩
        obtain ⟨rfl, rfl⟩ := List.cons.inj heq
        exact ⟨⟨rfl, hd⟩, hl⟩

lemma matchPlus9to15_iff (cs : List Char) :
    matchPlus9to15 cs = true ↔ specGenericShape cs := by
  cases cs with
  | nil => simp [matchPlus9to15, specGenericShape]
  | cons c rest =>
      simp only [matchPlus9to15, Bool.and_eq_true, beq_iff_eq,
        List.all_eq_true, decide_eq_true_eq, specGenericShape]
      constructor
      · rintro ⟨⟨⟨rfl, hd⟩, h9⟩, h15⟩
        exact ⟨rest, hd, h9, h15, rfl⟩
      · rintro ⟨ds, hd, h9, h15, heq⟩
        obtain ⟨rfl, rfl⟩ := List.cons.inj heq
        exact ⟨⟨⟨rfl, hd⟩, h9⟩, h15⟩

/-- C6: phone validation accepts exactly the (stripped) strings of one of
the three spec shapes — international `+DD DDD DDD DDDD` with optional
single separators, 10-digit local starting with `0`, or `+` followed by
9–15 digits — and in particular accepts "+84 912 345 6789", "0912345678"
and "+123456789" while rejecting "12345" and "abc". -/
theorem c6_phone_validation_shapes :
    (∀ s : List Char, is_phone_valid s = true ↔
      (specIntlShape (pyStrip s) ∨ specLocalShape (pyStrip s) ∨
        specGenericShape (pyStrip s))) ∧
    is_phone_valid (String.toList "+84 912 345 6789") = true ∧
    is_phone_valid (String.toList "0912345678") = true ∧
    is_phone_valid (String.toList "+123456789") = true ∧
    is_phone_valid (String.toList "12345") = false ∧
    is_phone_valid (String.toList "abc") = false := by
  refine ⟨?_, by decide, by decide, by decide, by decide, by decide⟩
  intro s
  unfold is_phone_valid
  simp only [Bool.or_eq_true]
  rw [matchIntl_iff, matchLocal10_iff, matchPlus9to15_iff, or_assoc]

/-- C1: confirming an order re-reads the product's current price from
storage, and the persisted order row carries that current price — never
the price snapshotted into the conversation state at initiation. -/
theorem c1_order_price_at_confirmation (ps : List Product) (nextId : Nat)
    (orders : List OrderRow) (uid : Nat) (un : Option String) (d : ConvData)
    (p : Product) (h : get_product_db ps d.product_id = some p) :
    order_confirm ps nextId orders uid un d =
      some (nextId + 1, orders ++
        [{ id := nextId, user_id := uid, username := un,
           product_id := d.product_id, price := p.price,
           delivery_date := d.delivery_date,
           delivery_time := d.delivery_time,
           address := d.address.getD "", card_text := d.card_text,
           phone := d.phone, status := "🟡 Новый" }]) ∧
    (d.product_price ≠ p.price →
      ∀ r : OrderRow, order_confirm ps nextId orders uid un d =
        some (nextId + 1, orders ++ [r]) → r.price ≠ d.product_price) := by
  have h1 : order_confirm ps nextId orders uid un d =
      some (nextId + 1, orders ++
        [{ id := nextId, user_id := uid, username := un,
           product_id := d.product_id, price := p.price,
           delivery_date := d.delivery_date,
           delivery_time := d.delivery_time,
           address := d.address.getD "", card_text := d.card_text,
           phone := d.phone, status := "🟡 Новый" }]) := by
    simp [order_confirm, h, create_order_db]
  refine ⟨h1, ?_⟩
  intro hne r hr
  rw [h1] at hr
  simp only [Option.some.injEq, Prod.mk.injEq, List.append_cancel_left_eq,
    List.cons.injEq, and_true, true_and] at hr
  rw [← hr]
  exact Ne.symm hne

/-- C1 witness: a product whose stored price changed from the snapshotted
100 to 200 between initiation and confirmation; the persisted order
carries 200. -/
theorem c1_order_price_witness :
    order_confirm
      [{ id := 1, category_id := 1, name := "Rose", price := 200,
         price_from := false, description := "d", photo_file_id := "f",
         is_active := true }] 7 [] 42 none
      { product_id := 1, product_price := 100, product_name := "Rose",
        delivery_date := "2026-10-13", delivery_time := "09:00-12:00",
        address := some "Le Loi street 10", card_text := none,
        phone := "+123456789" } =
      some (8,
        [{ id := 7, user_id := 42, username := none, product_id := 1,
           price := 200, delivery_date := "2026-10-13",
           delivery_time := "09:00-12:00", address := "Le Loi street 10",
           card_text := none, phone := "+123456789",
           status := "🟡 Новый" }]) := by
  have := c1_order_price_at_confirmation
    [{ id := 1, category_id := 1, name := "Rose", price := 200,
       price_from := false, description := "d", photo_file_id := "f",
       is_active := true }] 7 [] 42 none
    { product_id := 1, product_price := 100, product_name := "Rose",
      delivery_date := "2026-10-13", delivery_time := "09:00-12:00",
      address := some "Le Loi street 10", card_text := none,
      phone := "+123456789" }
    { id := 1, category_id := 1, name := "Rose", price := 200,
      price_from := false, description := "d", photo_file_id := "f",
      is_active := true } (by rfl)
  simpa using this.1

/-- C2 counterexample: at 19:00 (past the 18:00 cutoff) the quick `today`
button is absent, yet the first button of the 14-day calendar grid still
resolves to the current calendar date 100. -/
theorem c2_counterexample_today_in_grid :
    is_after_six_pm 19 0 = true ∧
    DateButton.dateSel (DateChoice.explicitDate 100) ∈
      (order_start_kb 19 0 100).flatten ∧
    date_selected_resolve 100 (DateChoice.explicitDate 100) = 100 := by
  decide

/-- C2 amended: once local time is 18:00 or later, the quick row of a
fresh order's date keyboard omits `today`, but the 14-day calendar grid
still begins at the current date, so a button resolving to the current
date remains selectable. -/
theorem c2_cutoff_only_hides_quick_button (hour minute today : Nat)
    (h : is_after_six_pm hour minute = true) :
    DateButton.dateSel DateChoice.today ∉
      (order_start_kb hour minute today).flatten ∧
    DateButton.dateSel (DateChoice.explicitDate today) ∈
      (order_start_kb hour minute today).flatten ∧
    date_selected_resolve today (DateChoice.explicitDate today) = today := by
  have hrange : List.range 14 = [0, 1, 2, 3, 4, 5, 6, 7, 8, 9, 10, 11, 12, 13] := by
    rfl
  refine ⟨?_, ?_, rfl⟩
  · simp [order_start_kb, h, order_date_kb, hrange, List.mem_flatten]
  · simp [order_start_kb, h, order_date_kb, hrange, List.mem_flatten]

/-- C2 amended witness: the fresh-order keyboard at 19:00 on day 100,
evaluated concretely. -/
theorem c2_cutoff_only_hides_quick_button_witness :
    DateButton.dateSel DateChoice.today ∉
      (order_start_kb 19 0 100).flatten ∧
    DateButton.dateSel (DateChoice.explicitDate 100) ∈
      (order_start_kb 19 0 100).flatten ∧
    date_selected_resolve 100 (DateChoice.explicitDate 100) = 100 :=
  c2_cutoff_only_hides_quick_button 19 0 100 (by decide)

/-- C5 helper: updating an order's status rewrites exactly the looked-up
row. -/
lemma get_order_db_update (orders : List OrderRow) (oid : Nat)
    (st : String) :
    get_order_db (update_order_status_db orders oid st) oid =
      (get_order_db orders oid).map (fun o => { o with status := st }) := by
  induction orders with
  | nil => rfl
  | cons a rest ih =>
      unfold get_order_db update_order_status_db at ih ⊢
      rw [List.map_cons]
      by_cases ha : (a.id == oid) = true
      · rw [if_pos ha]
        rw [List.find?_cons_of_pos (p := fun (o : OrderRow) => o.id == oid) _
          (show ((fun (o : OrderRow) => o.id == oid)
            { a with status := st }) = true from ha)]
        rw [List.find?_cons_of_pos (p := fun (o : OrderRow) => o.id == oid) _ ha]
        rfl
      · rw [if_neg ha,
          List.find?_cons_of_neg (p := fun (o : OrderRow) => o.id == oid) _ ha,
          List.find?_cons_of_neg (p := fun (o : OrderRow) => o.id == oid) _ ha, ih]

/-- C5: for an existing order, the admin accept action sets its status to
`🔵 В работе` and the reject action to `❌ Отменён`; both results are
independent of whether the customer notification succeeds. -/
theorem c5_admin_moderation (admin_ids : List Nat) (caller : Nat)
    (orders : List OrderRow) (oid : Nat) (o : OrderRow) (notify_ok : Bool)
    (hadm : caller ∈ admin_ids)
    (hord : get_order_db orders oid = some o) :
    get_order_db (admin_order_accept admin_ids caller orders oid notify_ok)
      oid = some { o with status := "🔵 В работе" } ∧
    get_order_db (admin_order_reject admin_ids caller orders oid notify_ok)
      oid = some { o with status := "❌ Отменён" } ∧
    admin_order_accept admin_ids caller orders oid true =
      admin_order_accept admin_ids caller orders oid false ∧
    admin_order_reject admin_ids caller orders oid true =
      admin_order_reject admin_ids caller orders oid false := by
  refine ⟨?_, ?_, rfl, rfl⟩ <;>
    simp [admin_order_accept, admin_order_reject, hadm, hord,
      get_order_db_update]

/-- C5 witness: a single pending order moderated by admin 1; both actions
evaluated concretely, with a failing notification (`notify_ok = false`). -/
theorem c5_admin_moderation_witness :
    get_order_db (admin_order_accept [1] 1
      [{ id := 5, user_id := 42, username := none, product_id := 1,
         price := 100, delivery_date := "2026-10-13",
         delivery_time := "09:00-12:00", address := "Le Loi street 10",
         card_text := none, phone := "+123456789",
         status := "🟡 Новый" }] 5 false) 5 =
      some { id := 5, user_id := 42, username := none, product_id := 1,
             price := 100, delivery_date := "2026-10-13",
             delivery_time := "09:00-12:00", address := "Le Loi street 10",
             card_text := none, phone := "+123456789",
             status := "🔵 В работе" } := by
  have := c5_admin_moderation [1] 1
    [{ id := 5, user_id := 42, username := none, product_id := 1,
       price := 100, delivery_date := "2026-10-13",
       delivery_time := "09:00-12:00", address := "Le Loi street 10",
       card_text := none, phone := "+123456789",
       status := "🟡 Новый" }] 5
    { id := 5, user_id := 42, username := none, product_id := 1,
      price := 100, delivery_date := "2026-10-13",
      delivery_time := "09:00-12:00", address := "Le Loi street 10",
      card_text := none, phone := "+123456789",
      status := "🟡 Новый" } false (by simp) (by rfl)
  simpa using this.1

/-- C3 counterexample: `add_category` called before the connection is
established fails with the `AttributeError` raised by dereferencing the
absent connection, which is a different error than the "NotInitialized"
`RuntimeError` the claim demands. -/
theorem c3_counterexample_add_category_error :
    add_category none { nextId := 1, rows := [] } "x" =
      Except.error PyError.attributeNoneExecute ∧
    PyError.attributeNoneExecute ≠ PyError.notInitialized := by
  exact ⟨rfl, by decide⟩

/-- C3 amended: every storage operation called before the connection is
established fails, but only `create_schema` fails with the
"NotInitialized" `RuntimeError`; all other operations fail with the
`AttributeError` from dereferencing the `None` connection (and
`update_product` with an empty field set even returns successfully without
touching the connection). -/
theorem c3_uninitialized_behaviour :
    create_schema none = Except.error PyError.notInitialized ∧
    (∀ t name, add_category none t name =
      Except.error PyError.attributeNoneExecute) ∧
    (∀ t cid nn, rename_category none t cid nn =
      Except.error PyError.attributeNoneExecute) ∧
    (∀ t cid, delete_category none t cid =
      Except.error PyError.attributeNoneExecute) ∧
    (∀ t, get_categories none t =
      Except.error PyError.attributeNoneExecute) ∧
    (∀ nid ps cid nm pr pf de ph ia, add_product none nid ps cid nm pr pf de
      ph ia = Except.error PyError.attributeNoneExecute) ∧
    (∀ ps pid f fs, update_product none ps pid (f :: fs) =
      Except.error PyError.attributeNoneExecute) ∧
    (∀ ps pid, update_product none ps pid [] = Except.ok ps) ∧
    (∀ ps pid, delete_product none ps pid =
      Except.error PyError.attributeNoneExecute) ∧
    (∀ ps cid l o, get_products_by_category none ps cid l o =
      Except.error PyError.attributeNoneExecute) ∧
    (∀ ps cid, count_products_in_category none ps cid =
      Except.error PyError.attributeNoneExecute) ∧
    (∀ ps pid, get_product none ps pid =
      Except.error PyError.attributeNoneExecute) ∧
    (∀ nid orders uid un pid pr dd dt ad ct ph st,
      create_order none nid orders uid un pid pr dd dt ad ct ph st =
        Except.error PyError.attributeNoneExecute) ∧
    (∀ orders oid st, update_order_status none orders oid st =
      Except.error PyError.attributeNoneExecute) ∧
    (∀ orders uid l, get_user_orders none orders uid l =
      Except.error PyError.attributeNoneExecute) ∧
    (∀ orders uid l, get_last_completed_orders none orders uid l =
      Except.error PyError.attributeNoneExecute) ∧
    (∀ orders oid, get_order none orders oid =
      Except.error PyError.attributeNoneExecute) ∧
    (∀ nid msgs uid un tx, save_support_message none nid msgs uid un tx =
      Except.error PyError.attributeNoneExecute) := by
  refine ⟨rfl, fun _ _ => rfl, fun _ _ _ => rfl, fun _ _ => rfl,
    fun _ => rfl, fun _ _ _ _ _ _ _ _ _ => rfl, fun _ _ _ _ => rfl,
    fun _ _ => rfl, fun _ _ => rfl, fun _ _ _ _ => rfl, fun _ _ => rfl,
    fun _ _ => rfl, fun _ _ _ _ _ _ _ _ _ _ _ _ => rfl,
    fun _ _ _ => rfl, fun _ _ _ => rfl, fun _ _ _ => rfl, fun _ _ => rfl,
    fun _ _ _ _ _ => rfl⟩

/-- C4: the product list uses a fixed page size of 5, computes
`total_pages = max 1 (ceil n / 5)`, clamps the requested page into
`[1, total_pages]`, and serves the rows at offset `(page - 1) * 5`; with
12 active products there are 3 pages, requests for pages 0 and 99 clamp to
1 and 3, and page 3 holds exactly 2 products. -/
theorem c4_pagination (ps : List Product) (cid : Nat) (page : Int) :
    (send_products_page ps cid page).total_pages =
      max 1 ((count_products_in_category_db ps cid + 4) / 5) ∧
    1 ≤ (send_products_page ps cid page).page ∧
    (send_products_page ps cid page).page ≤
      (send_products_page ps cid page).total_pages ∧
    (send_products_page ps cid page).products =
      ((active_in_category ps cid).drop
        (((send_products_page ps cid page).page - 1) * 5)).take 5 ∧
    (send_products_page ps cid page).products.length ≤ 5 ∧
    (count_products_in_category_db ps cid = 12 →
      (send_products_page ps cid page).total_pages = 3 ∧
      (send_products_page ps cid 0).page = 1 ∧
      (send_products_page ps cid 99).page = 3 ∧
      (send_products_page ps cid 3).products.length = 2) := by
  refine ⟨?_, ?_, ?_, rfl, ?_, ?_⟩
  · show max 1 ((count_products_in_category_db ps cid + 5 - 1) / 5) =
      max 1 ((count_products_in_category_db ps cid + 4) / 5)
    omega
  · show 1 ≤ (min (max 1 page)
      ((max 1 ((count_products_in_category_db ps cid + 5 - 1) / 5) :
        Nat) : Int)).toNat
    omega
  · show (min (max 1 page)
      ((max 1 ((count_products_in_category_db ps cid + 5 - 1) / 5) :
        Nat) : Int)).toNat ≤
      max 1 ((count_products_in_category_db ps cid + 5 - 1) / 5)
    omega
  · show (((active_in_category ps cid).drop _).take 5).length ≤ 5
    simp [List.length_take]
  · intro h12
    have hact : (active_in_category ps cid).length = 12 := h12
    refine ⟨?_, ?_, ?_, ?_⟩
    · show max 1 ((count_products_in_category_db ps cid + 5 - 1) / 5) = 3
      rw [show count_products_in_category_db ps cid =
        (active_in_category ps cid).length from rfl, hact]
      decide
    · show (min (max 1 (0 : Int))
        ((max 1 ((count_products_in_category_db ps cid + 5 - 1) / 5) :
          Nat) : Int)).toNat = 1
      rw [show count_products_in_category_db ps cid =
        (active_in_category ps cid).length from rfl, hact]
      decide
    · show (min (max 1 (99 : Int))
        ((max 1 ((count_products_in_category_db ps cid + 5 - 1) / 5) :
          Nat) : Int)).toNat = 3
      rw [show count_products_in_category_db ps cid =
        (active_in_category ps cid).length from rfl, hact]
      decide
    · show (((active_in_category ps cid).drop
        (((min (max 1 (3 : Int))
          ((max 1 ((count_products_in_category_db ps cid + 5 - 1) / 5) :
            Nat) : Int)).toNat - 1) * 5)).take 5).length = 2
      rw [show count_products_in_category_db ps cid =
        (active_in_category ps cid).length from rfl, hact]
      simp [List.length_take, List.length_drop, hact]

/-- C4 witness: a concrete category with 12 active products, evaluated at
the claimed corner pages. -/
theorem c4_pagination_witness :
    count_products_in_category_db ((List.range 12).map fun i =>
      { id := i, category_id := 1, name := "p", price := 100,
        price_from := false, description := "d", photo_file_id := "f",
        is_active := true }) 1 = 12 ∧
    (send_products_page ((List.range 12).map fun i =>
      { id := i, category_id := 1, name := "p", price := 100,
        price_from := false, description := "d", photo_file_id := "f",
        is_active := true }) 1 0).total_pages = 3 ∧
    (send_products_page ((List.range 12).map fun i =>
      { id := i, category_id := 1, name := "p", price := 100,
        price_from := false, description := "d", photo_file_id := "f",
        is_active := true }) 1 0).page = 1 ∧
    (send_products_page ((List.range 12).map fun i =>
      { id := i, category_id := 1, name := "p", price := 100,
        price_from := false, description := "d", photo_file_id := "f",
        is_active := true }) 1 99).page = 3 ∧
    (send_products_page ((List.range 12).map fun i =>
      { id := i, category_id := 1, name := "p", price := 100,
        price_from := false, description := "d", photo_file_id := "f",
        is_active := true }) 1 3).products.length = 2 := by
  have h := (c4_pagination ((List.range 12).map fun i =>
    { id := i, category_id := 1, name := "p", price := 100,
      price_from := false, description := "d", photo_file_id := "f",
      is_active := true }) 1 0).2.2.2.2.2 (by decide)
  exact ⟨by decide, h.1, h.2.1, h.2.2.1, h.2.2.2⟩

/-- C7 counterexample: after sharing a location the address holds the geo
marker, but the subsequent supplementary free-text line (10 or more
characters) replaces the whole address, so the persisted address no longer
contains `geo:`. -/
theorem c7_counterexample_supplement_overwrites_geo :
    (address_location
      { product_id := 0, product_price := 0, product_name := "",
        delivery_date := "", delivery_time := "", address := none,
        card_text := none, phone := "" }
      OrderFsm.waiting_for_address "10.762622" "106.660172").1.address =
      some "geo:10.762622,106.660172" ∧
    (address_text
      (address_location
        { product_id := 0, product_price := 0, product_name := "",
          delivery_date := "", delivery_time := "", address := none,
          card_text := none, phone := "" }
        OrderFsm.waiting_for_address "10.762622" "106.660172").1
      OrderFsm.waiting_for_address "Le Loi street 10, apt 5").2 =
      OrderFsm.waiting_for_card_text ∧
    (address_text
      (address_location
        { product_id := 0, product_price := 0, product_name := "",
          delivery_date := "", delivery_time := "", address := none,
          card_text := none, phone := "" }
        OrderFsm.waiting_for_address "10.762622" "106.660172").1
      OrderFsm.waiting_for_address "Le Loi street 10, apt 5").1.address =
      some "Le Loi street 10, apt 5" ∧
    containsChars (String.toList "geo:")
      (String.toList "Le Loi street 10, apt 5") = false := by
  refine ⟨rfl, rfl, ?_, by decide⟩
  decide

/-- C7 amended: sharing a location stores `geo:<latitude>,<longitude>` as
the address and keeps the FSM in WaitingAddress; a subsequent free-text
line of at least 10 characters replaces the stored address with that line
(discarding the geo marker) and advances to WaitingCardText, while shorter
input changes nothing. -/
theorem c7_geo_address_then_text (d : ConvData) (fsm : OrderFsm)
    (lat lon : String) (t : String) :
    (address_location d fsm lat lon).1.address =
      some ("geo:" ++ lat ++ "," ++ lon) ∧
    (address_location d fsm lat lon).2 = fsm ∧
    (10 ≤ (pyStrip t.toList).length →
      address_text (address_location d fsm lat lon).1 fsm t =
        ({ (address_location d fsm lat lon).1 with
           address := some (String.mk (pyStrip t.toList)) },
         OrderFsm.waiting_for_card_text)) ∧
    ((pyStrip t.toList).length < 10 →
      address_text (address_location d fsm lat lon).1 fsm t =
        ((address_location d fsm lat lon).1, fsm)) := by
  refine ⟨rfl, rfl, ?_, ?_⟩
  · intro h10
    unfold address_text
    rw [if_neg (by omega)]
  · intro hlt
    unfold address_text
    rw [if_pos hlt]

/-- C7 amended witness: the concrete geo order flow evaluated at a 23
character supplement. -/
theorem c7_geo_address_then_text_witness :
    address_text
      (address_location
        { product_id := 0, product_price := 0, product_name := "",
          delivery_date := "", delivery_time := "", address := none,
          card_text := none, phone := "" }
        OrderFsm.waiting_for_address "10.762622" "106.660172").1
      OrderFsm.waiting_for_address "Le Loi street 10, apt 5" =
      ({ (address_location
          { product_id := 0, product_price := 0, product_name := "",
            delivery_date := "", delivery_time := "", address := none,
            card_text := none, phone := "" }
          OrderFsm.waiting_for_address "10.762622" "106.660172").1 with
         address := some (String.mk
           (pyStrip (String.toList "Le Loi street 10, apt 5"))) },
       OrderFsm.waiting_for_card_text) := by
  exact (c7_geo_address_then_text
    { product_id := 0, product_price := 0, product_name := "",
      delivery_date := "", delivery_time := "", address := none,
      card_text := none, phone := "" }
    OrderFsm.waiting_for_address "10.762622" "106.660172"
    "Le Loi street 10, apt 5").2.2.1 (by decide)

/-- C8 counterexample: the price step rejects `from 1800000` (re-prompt,
`none`) even though the claim requires the `from` form to be accepted with
the `price_from` flag; the Cyrillic `от` form is the one accepted. -/
theorem c8_counterexample_from_rejected :
    admin_add_price (String.toList "from 1800000") = none ∧
    admin_add_price (String.toList "от 1800000") = some (1800000, true) ∧
    admin_add_price (String.toList "1800000") = some (1800000, false) ∧
    admin_add_price (String.toList "abc") = none := by
  refine ⟨by decide, by decide, by decide, by decide⟩

/-- C8 amended: the price step accepts exactly a bare digit string (flag
false) or the case-insensitive Cyrillic prefix `от` followed (after
re-stripping) by a digit string (flag true); the Latin `from` form is not
recognised and any other input is rejected with no state advance. -/
theorem c8_price_step_characterisation (text : List Char) (n : Nat) :
    (admin_add_price text = some (n, true) ↔
      startsWithChars ['о', 'т'] ((pyStrip text).map pyLowerChar) = true ∧
      pyStrip ((pyStrip text).drop 2) ≠ [] ∧
      (pyStrip ((pyStrip text).drop 2)).all pyIsDigit = true ∧
      n = digitsToNat (pyStrip ((pyStrip text).drop 2))) ∧
    (admin_add_price text = some (n, false) ↔
      startsWithChars ['о', 'т'] ((pyStrip text).map pyLowerChar) = false ∧
      pyStrip text ≠ [] ∧ (pyStrip text).all pyIsDigit = true ∧
      n = digitsToNat (pyStrip text)) := by
  unfold admin_add_price
  by_cases hstart :
      startsWithChars ['о', 'т'] ((pyStrip text).map pyLowerChar) = true
  · by_cases hne : pyStrip ((pyStrip text).drop 2) ≠ []
    · by_cases hall : (pyStrip ((pyStrip text).drop 2)).all pyIsDigit = true
      · simp [hstart, hne, hall]
        exact eq_comm
      · simp [hstart, hne, hall]
    · simp [hstart, hne]
  · by_cases hne : pyStrip text ≠ []
    · by_cases hall : (pyStrip text).all pyIsDigit = true
      · simp [hstart, hne, hall]
        exact eq_comm
      · simp [hstart, hne, hall]
    · simp [hstart, hne]

lemma add_category_db_preserves (t : CatTable) (name : String)
    (hwf : CatWF t) (hn : CatNamesDistinct t) :
    CatWF (add_category_db t name) ∧
      CatNamesDistinct (add_category_db t name) := by
  unfold add_category_db
  by_cases hdup : t.rows.any (fun r => r.2 == name) = true
  · rw [if_pos hdup]; exact ⟨hwf, hn⟩
  · rw [if_neg hdup]
    have hnot : ∀ r ∈ t.rows, r.2 ≠ name := by
      intro r hr heq
      exact hdup (List.any_eq_true.mpr ⟨r, hr, by simp [heq]⟩)
    refine ⟨⟨?_, ?_⟩, ?_⟩
    · rw [List.map_append, List.nodup_append]
      refine ⟨hwf.1, by simp, ?_⟩
      intro x hx
      simp only [List.map_cons, List.map_nil, List.mem_singleton]
      intro hx2
      subst hx2
      obtain ⟨r, hr, hreq⟩ := List.mem_map.mp hx
      exact absurd (hreq ▸ hwf.2 r hr) (lt_irrefl _)
    · intro r hr
      rcases List.mem_append.mp hr with h1 | h1
      · exact Nat.lt_succ_of_lt (hwf.2 r h1)
      · simp only [List.mem_singleton] at h1
        subst h1
        exact Nat.lt_succ_self _
    · unfold CatNamesDistinct
      rw [List.map_append, List.nodup_append]
      refine ⟨hn, by simp, ?_⟩
      intro x hx
      simp only [List.map_cons, List.map_nil, List.mem_singleton]
      intro hx2
      subst hx2
      obtain ⟨r, hr, hreq⟩ := List.mem_map.mp hx
      exact hnot r hr hreq

lemma rename_names_nodup (cid : Nat) (nn : String)
    (rows : List (Nat × String)) (hids : (rows.map Prod.fst).Nodup)
    (hnames : (rows.map Prod.snd).Nodup)
    (hconf : ∀ r ∈ rows, r.1 ≠ cid → r.2 ≠ nn) :
    ((rows.map (fun r => if r.1 == cid then (r.1, nn) else r)).map
      Prod.snd).Nodup := by
  induction rows with
  | nil => simp
  | cons a rest ih =>
      simp only [List.map_cons, List.nodup_cons] at hids hnames
      obtain ⟨hidsa, hids2⟩ := hids
      obtain ⟨hnamesa, hnames2⟩ := hnames
      by_cases ha : (a.1 == cid) = true
      · have ha2 : a.1 = cid := by simpa using ha
        rw [List.map_cons, if_pos ha]
        have hrest : rest.map
            (fun r => if r.1 == cid then (r.1, nn) else r) = rest := by
          have : rest.map (fun r => if r.1 == cid then (r.1, nn) else r) =
              rest.map id := by
            apply List.map_congr_left
            intro r hr
            have hr1 : r.1 ≠ cid := by
              intro hcid
              exact hidsa (by
                rw [ha2, ← hcid]
                exact List.mem_map_of_mem Prod.fst hr)
            simp [hr1]
          rw [this, List.map_id]
        rw [hrest, List.map_cons, List.nodup_cons]
        constructor
        · intro hmem
          obtain ⟨r, hr, hreq⟩ := List.mem_map.mp hmem
          have hr1 : r.1 ≠ cid := by
            intro hcid
            exact hidsa (by
              rw [ha2, ← hcid]
              exact List.mem_map_of_mem Prod.fst hr)
          exact hconf r (List.mem_cons_of_mem a hr) hr1 hreq
        · exact hnames2
      · have ha2 : a.1 ≠ cid := by simpa using ha
        rw [List.map_cons, if_neg ha, List.map_cons, List.nodup_cons]
        constructor
        · intro hmem
          obtain ⟨x, hx, hxeq⟩ := List.mem_map.mp hmem
          obtain ⟨r, hr, hreq⟩ := List.mem_map.mp hx
          by_cases hrc : (r.1 == cid) = true
          · rw [if_pos hrc] at hreq
            rw [← hreq] at hxeq
            exact hconf a (List.mem_cons_self a rest) ha2 hxeq.symm
          · rw [if_neg hrc] at hreq
            rw [← hreq] at hxeq
            exact hnamesa (hxeq ▸ List.mem_map_of_mem Prod.snd hr)
        · exact ih hids2 hnames2
            (fun r hr hne => hconf r (List.mem_cons_of_mem a hr) hne)

lemma rename_map_fst (rows : List (Nat × String)) (cid : Nat)
    (nn : String) :
    (rows.map (fun r => if r.1 == cid then (r.1, nn) else r)).map Prod.fst =
      rows.map Prod.fst := by
  rw [List.map_map]
  apply List.map_congr_left
  intro r _
  by_cases h : r.1 = cid <;> simp [h]

lemma rename_category_db_preserves (t : CatTable) (cid : Nat) (nn : String)
    (hwf : CatWF t) (hn : CatNamesDistinct t) :
    CatWF (rename_category_db t cid nn) ∧
      CatNamesDistinct (rename_category_db t cid nn) := by
  unfold rename_category_db
  by_cases hconf : t.rows.any (fun r => !(r.1 == cid) && r.2 == nn) = true
  · rw [if_pos hconf]; exact ⟨hwf, hn⟩
  · rw [if_neg hconf]
    have hconf2 : ∀ r ∈ t.rows, r.1 ≠ cid → r.2 ≠ nn := by
      intro r hr h1 h2
      exact hconf (List.any_eq_true.mpr ⟨r, hr, by simp [h1, h2]⟩)
    refine ⟨⟨?_, ?_⟩, ?_⟩
    · have hids := hwf.1
      rw [← rename_map_fst t.rows cid nn] at hids
      exact hids
    · intro r hr
      obtain ⟨r0, hr0, hr0eq⟩ := List.mem_map.mp hr
      have hfst : r.1 = r0.1 := by
        rw [← hr0eq]
        by_cases h : (r0.1 == cid) = true <;> simp [h]
      rw [hfst]
      exact hwf.2 r0 hr0
    · exact rename_names_nodup cid nn t.rows hwf.1 hn hconf2

lemma delete_category_db_preserves (t : CatTable) (cid : Nat)
    (hwf : CatWF t) (hn : CatNamesDistinct t) :
    CatWF (delete_category_db t cid) ∧
      CatNamesDistinct (delete_category_db t cid) := by
  unfold delete_category_db
  have hsub : List.Sublist (t.rows.filter fun r => !(r.1 == cid)) t.rows :=
    List.filter_sublist _
  refine ⟨⟨hwf.1.sublist (hsub.map Prod.fst), ?_⟩,
    hn.sublist (hsub.map Prod.snd)⟩
  intro r hr
  exact hwf.2 r (List.mem_of_mem_filter hr)

/-- C9: starting from a well-formed `categories` table (distinct primary
keys, AUTOINCREMENT counter above every id) with pairwise-distinct names,
any sequence of add/rename/delete category operations keeps the names
pairwise distinct; and adding a category whose name already exists leaves
the table unchanged (insert-or-ignore). -/
theorem c9_category_name_uniqueness (t : CatTable) (ops : List CatOp)
    (hwf : CatWF t) (hn : CatNamesDistinct t) :
    CatNamesDistinct (applyCatOps t ops) ∧
    ∀ name, name ∈ t.rows.map Prod.snd → add_category_db t name = t := by
  constructor
  · have main : ∀ (ops : List CatOp) (t : CatTable), CatWF t →
        CatNamesDistinct t →
        CatWF (applyCatOps t ops) ∧ CatNamesDistinct (applyCatOps t ops) := by
      intro ops
      induction ops with
      | nil => intro t h1 h2; exact ⟨h1, h2⟩
      | cons op rest ih =>
          intro t h1 h2
          have hstep : CatWF (applyCatOp t op) ∧
              CatNamesDistinct (applyCatOp t op) := by
            cases op with
            | addC name => exact add_category_db_preserves t name h1 h2
            | renameC cid nn =>
                exact rename_category_db_preserves t cid nn h1 h2
            | deleteC cid => exact delete_category_db_preserves t cid h1 h2
          exact ih (applyCatOp t op) hstep.1 hstep.2
    exact (main ops t hwf hn).2
  · intro name hname
    obtain ⟨r, hr, hreq⟩ := List.mem_map.mp hname
    unfold add_category_db
    rw [if_pos (List.any_eq_true.mpr ⟨r, hr, by simp [hreq]⟩)]

/-- C9 witness: a concrete operation sequence with a duplicate add, a
rename and a delete, starting from two distinct names. -/
theorem c9_category_name_uniqueness_witness :
    CatNamesDistinct (applyCatOps
      { nextId := 3, rows := [(1, "a"), (2, "b")] }
      [CatOp.addC "a", CatOp.renameC 2 "c", CatOp.deleteC 1,
       CatOp.addC "b"]) ∧
    add_category_db { nextId := 3, rows := [(1, "a"), (2, "b")] } "a" =
      { nextId := 3, rows := [(1, "a"), (2, "b")] } := by
  have h := c9_category_name_uniqueness
    { nextId := 3, rows := [(1, "a"), (2, "b")] }
    [CatOp.addC "a", CatOp.renameC 2 "c", CatOp.deleteC 1, CatOp.addC "b"]
    (by decide) (by decide)
  exact ⟨h.1, h.2 "a" (by decide)⟩

end FlowerBot
